import Mathlib

/-!
Verification of the moosecfg layered-configuration resolver.

The Python code is embedded shallowly:

* A Python `dict` (string keys, YAML scalar values) is an insertion-ordered
  association list `Obj`; a later entry for a key shadows an earlier one,
  which is how `dict.update` semantics arise when entries are appended.
  `Obj.get?` therefore reads the *last* binding of a key, `setKey` models
  `d[k] = v` (replace in place if present, else append), `dictUpdate`
  models `d.update(o)` and `setdefault` models `d.setdefault(k, v)`.
* `MooseConfigurator` (src/moosecfg/core.py) carries the unified object,
  the three tier sources and the class flags used by the merge engine;
  `MooseConfigurator.update` is the merge algorithm of
  `MooseConfigurator.update` in core.py.
* Filesystem-dependent operations (`is_readable`, `is_writable`, `read`
  of src/moosecfg/sources.py) are functions of an abstract `FileSystem`
  record mirroring the `os.path` / `os.access` / `yaml.safe_load` calls
  the code makes.
-/

namespace Moosecfg

/-- YAML scalar values appearing in configuration mappings. -/
inductive Value where
  | vStr : String → Value
  | vInt : Int → Value
deriving DecidableEq, Repr

/-- A Python `dict` with string keys: an insertion-ordered association
list where a later entry for a key shadows an earlier one. -/
abbrev Obj := List (String × Value)

/-- First-defined option, used to express "later binding wins" lookups. -/
def optOr (a b : Option Value) : Option Value :=
  match a with
  | some v => some v
  | none => b

/-- `d.get(k)` on a Python dict: the last binding of `k` wins. -/
def Obj.get? : Obj → String → Option Value
  | [], _ => none
  | p :: rest, k => optOr (Obj.get? rest k) (if p.1 = k then some p.2 else none)

/-- `k in d` on a Python dict. -/
def Obj.hasKey (d : Obj) (k : String) : Bool :=
  (d.get? k).isSome

/-- `d[k] = v` on a Python dict: replace the value in place when the key is
present (keeping its position), otherwise append the new binding. -/
def setKey (d : Obj) (k : String) (v : Value) : Obj :=
  if d.any (fun p => p.1 = k) then
    d.map (fun p => if p.1 = k then (k, v) else p)
  else
    d ++ [(k, v)]

/-- `d.update(o)` on Python dicts (core.py `_obj_update` body): assign each
binding of `o`, in order, into `d`. -/
def dictUpdate (d o : Obj) : Obj :=
  o.foldl (fun acc p => setKey acc p.1 p.2) d

/-- `d.setdefault(k, v)` on a Python dict (core.py `_obj_setdefault` body):
insert `(k, v)` only when `k` is absent. -/
def setdefault (d : Obj) (k : String) (v : Value) : Obj :=
  if d.any (fun p => p.1 = k) then d else d ++ [(k, v)]

/-- Python `==` on dicts: the same value (or absence) at every key;
insertion order is irrelevant to dict equality. -/
def Obj.equiv (d e : Obj) : Prop :=
  ∀ k, d.get? k = e.get? k

/-- The tier source objects and flags that `MooseConfigurator.update`
(core.py) consults, together with the unified object `_obj` it mutates.
`localSrc` renders the `local` attribute (`local` is reserved in Lean). -/
structure MooseYamlSource where
  name : String
  location : String
  obj : Obj
deriving DecidableEq, Repr

structure MooseConfigurator where
  obj : Obj
  defaults : Obj
  system : MooseYamlSource
  user : MooseYamlSource
  localSrc : MooseYamlSource
  SYSTEM_OVERRIDE : Bool
  LOCAL_FILE_LOAD : Bool
deriving DecidableEq, Repr

namespace MooseConfigurator

/-- core.py `_obj_update`: `self._obj.update(obj)`. -/
def obj_update (c : MooseConfigurator) (o : Obj) : MooseConfigurator :=
  { c with obj := dictUpdate c.obj o }

/-- core.py `_obj_setdefault`: `self._obj.setdefault(key, value)`. -/
def obj_setdefault (c : MooseConfigurator) (k : String) (v : Value) : MooseConfigurator :=
  { c with obj := setdefault c.obj k v }

/-- core.py `update_from_defaults`: `setdefault` each key of `defaults`. -/
def update_from_defaults (c : MooseConfigurator) : MooseConfigurator :=
  c.defaults.foldl (fun acc p => acc.obj_setdefault p.1 p.2) c

/-- core.py `update_from_source`: `self._obj_update(source.obj)`. -/
def update_from_source (c : MooseConfigurator) (source : MooseYamlSource) : MooseConfigurator :=
  c.obj_update source.obj

/-- core.py `update`: merge system, user, local in order, then the system
source once more when `SYSTEM_OVERRIDE` is set. -/
def update (c : MooseConfigurator) : MooseConfigurator :=
  let c1 := c.update_from_source c.system
  let c2 := c1.update_from_source c1.user
  let c3 := c2.update_from_source c2.localSrc
  if c3.SYSTEM_OVERRIDE then c3.update_from_source c3.system else c3

end MooseConfigurator

/-- The effect of `update_from_defaults` on a plain dict: `setdefault` each
binding of `dfl` into `d`, in order. -/
def setdefaults (d : Obj) (dfl : Obj) : Obj :=
  dfl.foldl (fun acc p => setdefault acc p.1 p.2) d

/-- Result of `yaml.safe_load` on a file's contents: `pyNone` when the
document decodes to no data (Python `None`), else a mapping. -/
inductive PyData where
  | pyNone
  | pyDict (d : Obj)
deriving DecidableEq, Repr

/-- The `os.path` / `os.access` / `yaml.safe_load` facts the source code
consults about the world, as one abstract record. -/
structure FileSystem where
  pathExists : String → Bool
  isFile : String → Bool
  accessR : String → Bool
  accessW : String → Bool
  safeLoad : String → PyData

/-- sources.py `MooseConfiguratorSource.is_readable`: the base class
always answers `True`. -/
def MooseConfiguratorSource.is_readable : Bool :=
  true

/-- sources.py `MooseConfiguratorSource.is_writable`: the base class
always answers `False`. -/
def MooseConfiguratorSource.is_writable : Bool :=
  false

/-- `MooseHttpYamlSource` does not override `is_writable`; it inherits the
base class's constant. -/
def MooseHttpYamlSource.is_writable : Bool :=
  MooseConfiguratorSource.is_writable

/-- `MooseHttpJsonSource` does not override `is_writable`; it inherits the
base class's constant. -/
def MooseHttpJsonSource.is_writable : Bool :=
  MooseConfiguratorSource.is_writable

/-- sources.py `MooseYamlSource.is_readable`: `_resp` stays `False` unless
the location exists, is a regular file and is readable. -/
def MooseYamlSource.is_readable (fs : FileSystem) (s : MooseYamlSource) : Bool :=
  if fs.pathExists s.location then
    if fs.isFile s.location then
      if fs.accessR s.location then true else false
    else false
  else false

/-- sources.py `MooseYamlSource.is_writable`: `_resp` stays `False` unless
the location exists, is a regular file and is writable. -/
def MooseYamlSource.is_writable (fs : FileSystem) (s : MooseYamlSource) : Bool :=
  if fs.pathExists s.location then
    if fs.isFile s.location then
      if fs.accessW s.location then true else false
    else false
  else false

/-- sources.py `MooseYamlSource.read`: `_data` starts as `{}`, is replaced
by `yaml.safe_load(...)` when the location is a file, and `_data.copy()`
is stored as `obj` — which raises `AttributeError` when `safe_load`
returned `None`. -/
def MooseYamlSource.read (fs : FileSystem) (s : MooseYamlSource) :
    Except String MooseYamlSource :=
  let data : PyData :=
    if fs.isFile s.location then fs.safeLoad s.location else .pyDict []
  match data with
  | .pyDict d => .ok { s with obj := d }
  | .pyNone => .error "AttributeError: NoneType object has no attribute copy"

/-- core.py `MooseConfigurator.read`: read each tier iff its source is
readable (and, for local, iff `LOCAL_FILE_LOAD`); an exception from a
tier's `read` propagates. -/
def MooseConfigurator.read (fs : FileSystem) (c : MooseConfigurator) :
    Except String MooseConfigurator :=
  match (if MooseYamlSource.is_readable fs c.system
      then MooseYamlSource.read fs c.system else .ok c.system) with
  | .error e => .error e
  | .ok sys =>
    match (if MooseYamlSource.is_readable fs c.user
        then MooseYamlSource.read fs c.user else .ok c.user) with
    | .error e => .error e
    | .ok usr =>
      match (if MooseYamlSource.is_readable fs c.localSrc && c.LOCAL_FILE_LOAD
          then MooseYamlSource.read fs c.localSrc else .ok c.localSrc) with
      | .error e => .error e
      | .ok loc => .ok { c with system := sys, user := usr, localSrc := loc }

/-- A source whose decode never yields Python `None` when it is readable;
hypothesis under which a tier's `read` cannot raise. -/
def sourceReadSafe (fs : FileSystem) (s : MooseYamlSource) : Prop :=
  MooseYamlSource.is_readable fs s = true →
    ∃ d, fs.safeLoad s.location = .pyDict d

/-- An absolute POSIX path as its list of components under the root. -/
abbrev Path := List String

/-- One step of `os.path.normpath`: empty and `.` components disappear,
`..` removes the previous component (a no-op at the root). -/
def normStep (acc : Path) (c : String) : Path :=
  if c = "" ∨ c = "." then acc
  else if c = ".." then acc.dropLast
  else acc ++ [c]

/-- `os.path.abspath` on an already-rooted path: normalization. -/
def abspath (p : Path) : Path :=
  p.foldl normStep []

/-- `os.path.basename` of a normalized absolute path: its last component,
or `""` for the root. -/
def basename (p : Path) : String :=
  p.getLast?.getD ""

/-- core.py `filename` property: `f'{self.name}.{self.extension}'`. -/
def filename (name extension : String) : String :=
  name ++ "." ++ extension

/-- core.py `local_full_path` property: prefix a dot to the filename when
`LOCAL_FILE_HIDDEN`, then
`os.path.abspath(os.path.join(self.LOCAL_CFG_DIR, _filename))`. -/
def local_full_path (LOCAL_CFG_DIR : Path) (name extension : String)
    (LOCAL_FILE_HIDDEN : Bool) : Path :=
  let f := filename name extension
  let f2 := if LOCAL_FILE_HIDDEN then "." ++ f else f
  abspath (LOCAL_CFG_DIR ++ [f2])

/-- A string that survives normalization as a path component of its own. -/
def isPlainComponent (c : String) : Prop :=
  c ≠ "" ∧ c ≠ "." ∧ c ≠ ".."

namespace MooseDirs

/-- The class attribute `MooseDirs._joins`: a single mutable list shared
by every instance. `__slots__ = ['name', 'append']` leaves `_joins` no
place on an instance, so `self._joins.append(...)` in `__init__` always
mutates this class-level list. -/
abbrev JoinsState := List String

/-- A `MooseDirs` instance: per `__slots__`, the only per-instance state
is `name` and the optional `append` argument. -/
structure Inst where
  name : String
  append : Option String

/-- utils.py `MooseDirs.__init__`: store `name`, then push `name` (and
`append` when supplied) onto the class-level `_joins` list. Returns the
instance together with the mutated class state. -/
def init (joins : JoinsState) (name : String) (append : Option String) :
    Inst × JoinsState :=
  let js := joins ++ [name]
  let js2 := match append with
    | some a => js ++ [a]
    | none => js
  (⟨name, append⟩, js2)

/-- utils.py `MooseDirs._join`: `os.path.join` the location with each
entry of the class-level `_joins` list, in order. -/
def join (joins : JoinsState) (location : Path) : Path :=
  joins.foldl (fun loc j => loc ++ [j]) location

/-- utils.py `MooseDirs.system_config` property:
`self._join(self._system_config)`. -/
def system_config (systemConfigDir : Path) (joins : JoinsState) : Path :=
  join joins systemConfigDir

/-- utils.py `MooseDirs.user_config` property:
`self._join(self._user_config)`. -/
def user_config (userConfigDir : Path) (joins : JoinsState) : Path :=
  join joins userConfigDir

end MooseDirs

/-- The class attribute `MooseConfigurator._obj = {}`: one dict per
process, shared by every instance, because `_obj_update` and
`_obj_setdefault` mutate it in place and no code ever rebinds `_obj`. -/
structure MooseConfiguratorClassState where
  classObj : Obj

/-- The `obj` property: `return self._obj`, i.e. a view of the shared
class-level dict. -/
def sharedObj (st : MooseConfiguratorClassState) : Obj :=
  st.classObj

/-- An instance merging a source object runs `self._obj.update(obj)`
(core.py `_obj_update`), mutating the shared class-level dict. -/
def sharedObjUpdate (st : MooseConfiguratorClassState) (o : Obj) :
    MooseConfiguratorClassState :=
  ⟨dictUpdate st.classObj o⟩

/-- Constructing a new `MooseConfigurator` never rebinds `_obj`; when a
`defaults` argument is given, `__init__` runs `update_from_defaults`,
which only `setdefault`s into the shared dict. This is the class state
right after construction, before the new instance merges any source. -/
def constructInstance (st : MooseConfiguratorClassState) (defaults : Obj) :
    MooseConfiguratorClassState :=
  ⟨setdefaults st.classObj defaults⟩

/-! ### Lookup lemmas for the dict model -/

theorem optOr_none_right (a : Option Value) : optOr a none = a := by
  cases a <;> rfl

theorem optOr_assoc (a b c : Option Value) :
    optOr (optOr a b) c = optOr a (optOr b c) := by
  cases a <;> rfl

theorem optOr_isSome (a b : Option Value) :
    (optOr a b).isSome = (a.isSome || b.isSome) := by
  cases a <;> simp [optOr]

theorem get?_cons (p : String × Value) (d : Obj) (k : String) :
    Obj.get? (p :: d) k = optOr (Obj.get? d k) (if p.1 = k then some p.2 else none) :=
  rfl

theorem get?_append (d e : Obj) (k : String) :
    Obj.get? (d ++ e) k = optOr (Obj.get? e k) (Obj.get? d k) := by
  induction d with
  | nil => simp [Obj.get?, optOr_none_right]
  | cons p d ih =>
      rw [List.cons_append, get?_cons, ih, get?_cons, optOr_assoc]

theorem get?_map_setKey_self (d : Obj) (k : String) (v : Value) :
    Obj.get? (d.map (fun p => if p.1 = k then (k, v) else p)) k =
      if d.any (fun p => p.1 = k) then some v else none := by
  induction d with
  | nil => simp [Obj.get?]
  | cons p d ih =>
      rw [List.map_cons, get?_cons, ih]
      by_cases h : p.1 = k
      · rw [if_pos h]
        cases hd : d.any (fun p => p.1 = k) <;>
          simp [List.any_cons, h, hd, optOr]
      · rw [if_neg h]
        cases hd : d.any (fun p => p.1 = k) <;>
          simp [List.any_cons, h, hd, optOr]

theorem get?_map_setKey_other (d : Obj) (k k' : String) (v : Value) (hk : k' ≠ k) :
    Obj.get? (d.map (fun p => if p.1 = k then (k, v) else p)) k' = Obj.get? d k' := by
  induction d with
  | nil => rfl
  | cons p d ih =>
      rw [List.map_cons, get?_cons, ih, get?_cons]
      by_cases h : p.1 = k
      · have h1 : ¬ k = k' := fun hkk => hk hkk.symm
        have h2 : ¬ p.1 = k' := by rw [h]; exact h1
        simp [h, h1, h2]
      · simp [h]

theorem get?_setKey (d : Obj) (k : String) (v : Value) (k' : String) :
    Obj.get? (setKey d k v) k' = if k' = k then some v else Obj.get? d k' := by
  unfold setKey
  by_cases hmem : d.any (fun p => p.1 = k)
  · rw [if_pos hmem]
    by_cases hk : k' = k
    · rw [if_pos hk, hk, get?_map_setKey_self, if_pos hmem]
    · rw [if_neg hk, get?_map_setKey_other d k k' v hk]
  · rw [if_neg hmem, get?_append]
    by_cases hk : k' = k
    · have h0 : Obj.get? [(k, v)] k' = some v := by
        rw [get?_cons]
        simp [Obj.get?, optOr, hk.symm]
      rw [h0, if_pos hk]
      rfl
    · have h0 : Obj.get? [(k, v)] k' = none := by
        rw [get?_cons]
        have : ¬ k = k' := fun h => hk h.symm
        simp [Obj.get?, optOr, this]
      rw [h0, if_neg hk]
      rfl

theorem get?_dictUpdate (o d : Obj) (k : String) :
    Obj.get? (dictUpdate d o) k = optOr (Obj.get? o k) (Obj.get? d k) := by
  induction o generalizing d with
  | nil => simp [dictUpdate, Obj.get?, optOr]
  | cons p o ih =>
      show Obj.get? (dictUpdate (setKey d p.1 p.2) o) k = _
      rw [ih, get?_setKey, get?_cons, optOr_assoc]
      by_cases hk : k = p.1
      · have hk2 : p.1 = k := hk.symm
        rw [if_pos hk, if_pos hk2]
        cases Obj.get? o k <;> rfl
      · have hk2 : ¬ p.1 = k := fun h => hk h.symm
        rw [if_neg hk, if_neg hk2]
        cases Obj.get? o k <;> rfl

theorem hasKey_iff_get? (d : Obj) (k : String) :
    d.hasKey k = true ↔ ∃ v, d.get? k = some v := by
  unfold Obj.hasKey
  cases h : d.get? k <;> simp [Option.isSome]

theorem hasKey_eq_any (d : Obj) (k : String) :
    d.hasKey k = d.any (fun p => p.1 = k) := by
  induction d with
  | nil => rfl
  | cons p d ih =>
      simp only [Obj.hasKey] at ih
      simp only [Obj.hasKey, get?_cons, optOr_isSome, List.any_cons, ih]
      by_cases hp : p.1 = k
      · simp [hp, Bool.or_comm]
      · simp [hp]

theorem hasKey_of_get? (d : Obj) (k : String) (v : Value) (h : d.get? k = some v) :
    d.hasKey k = true := by
  unfold Obj.hasKey
  rw [h]
  rfl

theorem hasKey_singleton (a : String) (v : Value) (k : String)
    (h : Obj.hasKey [(a, v)] k = true) : a = k := by
  by_cases hak : a = k
  · exact hak
  · exact absurd h (by simp [Obj.hasKey, Obj.get?, optOr, hak])

theorem get?_eq_none_of_hasKey_false (d : Obj) (k : String) (h : d.hasKey k = false) :
    d.get? k = none := by
  unfold Obj.hasKey at h
  cases hg : d.get? k
  · rfl
  · rw [hg] at h
    exact absurd h (by simp [Option.isSome])

/-! ### How `update` acts on the unified object -/

theorem get?_update_of_override_false (c : MooseConfigurator) (k : String)
    (hov : c.SYSTEM_OVERRIDE = false) :
    Obj.get? (MooseConfigurator.update c).obj k =
      optOr (c.localSrc.obj.get? k)
        (optOr (c.user.obj.get? k)
          (optOr (c.system.obj.get? k) (c.obj.get? k))) := by
  simp only [MooseConfigurator.update, MooseConfigurator.update_from_source,
    MooseConfigurator.obj_update, hov, Bool.false_eq_true, if_false,
    get?_dictUpdate]

theorem get?_update_of_override_true (c : MooseConfigurator) (k : String)
    (hov : c.SYSTEM_OVERRIDE = true) :
    Obj.get? (MooseConfigurator.update c).obj k =
      optOr (c.system.obj.get? k)
        (optOr (c.localSrc.obj.get? k)
          (optOr (c.user.obj.get? k)
            (optOr (c.system.obj.get? k) (c.obj.get? k)))) := by
  simp only [MooseConfigurator.update, MooseConfigurator.update_from_source,
    MooseConfigurator.obj_update, hov, if_true, get?_dictUpdate]

theorem update_system (c : MooseConfigurator) :
    (MooseConfigurator.update c).system = c.system := by
  by_cases h : c.SYSTEM_OVERRIDE = true <;>
    simp [MooseConfigurator.update, MooseConfigurator.update_from_source,
      MooseConfigurator.obj_update, h]

theorem update_user (c : MooseConfigurator) :
    (MooseConfigurator.update c).user = c.user := by
  by_cases h : c.SYSTEM_OVERRIDE = true <;>
    simp [MooseConfigurator.update, MooseConfigurator.update_from_source,
      MooseConfigurator.obj_update, h]

theorem update_localSrc (c : MooseConfigurator) :
    (MooseConfigurator.update c).localSrc = c.localSrc := by
  by_cases h : c.SYSTEM_OVERRIDE = true <;>
    simp [MooseConfigurator.update, MooseConfigurator.update_from_source,
      MooseConfigurator.obj_update, h]

theorem update_SYSTEM_OVERRIDE (c : MooseConfigurator) :
    (MooseConfigurator.update c).SYSTEM_OVERRIDE = c.SYSTEM_OVERRIDE := by
  by_cases h : c.SYSTEM_OVERRIDE = true <;>
    simp [MooseConfigurator.update, MooseConfigurator.update_from_source,
      MooseConfigurator.obj_update, h]

theorem hasKey_update (c : MooseConfigurator) (k : String) :
    Obj.hasKey (MooseConfigurator.update c).obj k =
      (c.localSrc.obj.hasKey k || c.user.obj.hasKey k ||
        c.system.obj.hasKey k || c.obj.hasKey k) := by
  have tauto : ∀ a b x y : Bool,
      (x || (a || (b || (x || y)))) = (a || (b || (x || y))) := by decide
  unfold Obj.hasKey
  by_cases hov : c.SYSTEM_OVERRIDE = true
  · rw [get?_update_of_override_true c k hov]
    simp only [optOr_isSome, tauto, Bool.or_assoc]
  · rw [get?_update_of_override_false c k (by simpa using hov)]
    simp only [optOr_isSome, Bool.or_assoc]

/-! ### Claim theorems: the merge/precedence engine -/

/-- C1: for tier mappings in which a key `k` occurs both in the system
source's object and in the local source's object, `update()` leaves the
local value at `k` in the unified mapping when `SYSTEM_OVERRIDE` is off and
the system value when it is on; and in both cases every key that occurs in
the user or local tier but not in the system tier is present in the
unified mapping afterwards. -/
theorem update_conflict_override_semantics
    (c : MooseConfigurator) (k : String)
    (hsys : c.system.obj.hasKey k = true)
    (hloc : c.localSrc.obj.hasKey k = true) :
    ((c.SYSTEM_OVERRIDE = false →
        Obj.get? (MooseConfigurator.update c).obj k = c.localSrc.obj.get? k) ∧
      (c.SYSTEM_OVERRIDE = true →
        Obj.get? (MooseConfigurator.update c).obj k = c.system.obj.get? k)) ∧
    (∀ k' : String,
      ((c.user.obj.hasKey k' = true ∧ c.system.obj.hasKey k' = false) ∨
        (c.localSrc.obj.hasKey k' = true ∧ c.system.obj.hasKey k' = false)) →
      Obj.hasKey (MooseConfigurator.update c).obj k' = true) := by
  obtain ⟨vl, hvl⟩ := (hasKey_iff_get? _ _).mp hloc
  obtain ⟨vs, hvs⟩ := (hasKey_iff_get? _ _).mp hsys
  refine ⟨⟨fun hov => ?_, fun hov => ?_⟩, fun k' hk' => ?_⟩
  · rw [get?_update_of_override_false c k hov, hvl]
    rfl
  · rw [get?_update_of_override_true c k hov, hvs]
    rfl
  · rw [hasKey_update]
    rcases hk' with ⟨hu, _⟩ | ⟨hl, _⟩
    · simp [hu]
    · simp [hl]

theorem update_conflict_override_semantics_witness :
    let sys : MooseYamlSource := ⟨"system", "/etc/moapp/moapp.yml", [("k", .vInt 1)]⟩
    let usr : MooseYamlSource := ⟨"user", "/home/u/.config/moapp/moapp.yml", [("u", .vInt 7)]⟩
    let loc : MooseYamlSource := ⟨"local", "/cwd/.moapp.yml", [("k", .vInt 2)]⟩
    let c : MooseConfigurator := ⟨[], [], sys, usr, loc, false, true⟩
    ((c.SYSTEM_OVERRIDE = false →
        Obj.get? (MooseConfigurator.update c).obj "k" = c.localSrc.obj.get? "k") ∧
      (c.SYSTEM_OVERRIDE = true →
        Obj.get? (MooseConfigurator.update c).obj "k" = c.system.obj.get? "k")) ∧
    (∀ k' : String,
      ((c.user.obj.hasKey k' = true ∧ c.system.obj.hasKey k' = false) ∨
        (c.localSrc.obj.hasKey k' = true ∧ c.system.obj.hasKey k' = false)) →
      Obj.hasKey (MooseConfigurator.update c).obj k' = true) :=
  update_conflict_override_semantics _ "k" (by decide) (by decide)

/-- C2: when the three tier objects have pairwise disjoint key sets and the
unified mapping starts empty, `update()` produces exactly the union of the
three tiers, whether or not `SYSTEM_OVERRIDE` is set. -/
theorem update_disjoint_tiers_union
    (c : MooseConfigurator)
    (hobj : c.obj = [])
    (hSU : ∀ k, c.system.obj.hasKey k = true → c.user.obj.hasKey k = false)
    (hSL : ∀ k, c.system.obj.hasKey k = true → c.localSrc.obj.hasKey k = false)
    (_hUL : ∀ k, c.user.obj.hasKey k = true → c.localSrc.obj.hasKey k = false) :
    Obj.equiv (MooseConfigurator.update c).obj
      (c.system.obj ++ c.user.obj ++ c.localSrc.obj) := by
  intro k
  have hrhs : Obj.get? (c.system.obj ++ c.user.obj ++ c.localSrc.obj) k =
      optOr (c.localSrc.obj.get? k)
        (optOr (c.user.obj.get? k) (c.system.obj.get? k)) := by
    rw [get?_append, get?_append]
  have hO : c.obj.get? k = none := by rw [hobj]; rfl
  by_cases hov : c.SYSTEM_OVERRIDE = true
  · rw [get?_update_of_override_true c k hov, hrhs, hO, optOr_none_right]
    cases hS : c.system.obj.get? k with
    | none => rfl
    | some v =>
        have hSk : c.system.obj.hasKey k = true := hasKey_of_get? _ _ _ hS
        have hU : c.user.obj.get? k = none :=
          get?_eq_none_of_hasKey_false _ _ (hSU k hSk)
        have hL : c.localSrc.obj.get? k = none :=
          get?_eq_none_of_hasKey_false _ _ (hSL k hSk)
        rw [hU, hL]
        rfl
  · rw [get?_update_of_override_false c k (by simpa using hov), hrhs, hO,
      optOr_none_right]

theorem update_disjoint_tiers_union_witness :
    let sys : MooseYamlSource := ⟨"system", "/etc/moapp/moapp.yml", [("a", .vInt 1)]⟩
    let usr : MooseYamlSource := ⟨"user", "/home/u/.config/moapp/moapp.yml", [("b", .vInt 2)]⟩
    let loc : MooseYamlSource := ⟨"local", "/cwd/.moapp.yml", [("c", .vInt 3)]⟩
    let c : MooseConfigurator := ⟨[], [], sys, usr, loc, true, true⟩
    Obj.equiv (MooseConfigurator.update c).obj
      (c.system.obj ++ c.user.obj ++ c.localSrc.obj) :=
  update_disjoint_tiers_union _ (by decide)
    (fun k hk => by
      have h := hasKey_singleton "a" (.vInt 1) k hk
      rw [← h]
      decide)
    (fun k hk => by
      have h := hasKey_singleton "a" (.vInt 1) k hk
      rw [← h]
      decide)
    (fun k hk => by
      have h := hasKey_singleton "b" (.vInt 2) k hk
      rw [← h]
      decide)

/-- C3: with the tier source objects unchanged, running `update()` twice in
succession leaves the unified mapping equal (as a Python dict) to the
result of running it once. -/
theorem update_idempotent (c : MooseConfigurator) :
    Obj.equiv (MooseConfigurator.update (MooseConfigurator.update c)).obj
      (MooseConfigurator.update c).obj := by
  intro k
  by_cases hov : c.SYSTEM_OVERRIDE = true
  · have hov' : (MooseConfigurator.update c).SYSTEM_OVERRIDE = true := by
      rw [update_SYSTEM_OVERRIDE]; exact hov
    rw [get?_update_of_override_true _ k hov', update_system, update_user,
      update_localSrc, get?_update_of_override_true c k hov]
    cases c.system.obj.get? k <;> cases c.localSrc.obj.get? k <;>
      cases c.user.obj.get? k <;> simp [optOr]
  · have hovf : c.SYSTEM_OVERRIDE = false := by simpa using hov
    have hov' : (MooseConfigurator.update c).SYSTEM_OVERRIDE = false := by
      rw [update_SYSTEM_OVERRIDE]; exact hovf
    rw [get?_update_of_override_false _ k hov', update_system, update_user,
      update_localSrc, get?_update_of_override_false c k hovf]
    cases c.system.obj.get? k <;> cases c.localSrc.obj.get? k <;>
      cases c.user.obj.get? k <;> simp [optOr]

/-! ### Defaults (`update_from_defaults` / `_obj_setdefault`) -/

theorem update_from_defaults_obj_aux (l : Obj) (c : MooseConfigurator) :
    (l.foldl (fun acc p => MooseConfigurator.obj_setdefault acc p.1 p.2) c).obj =
      setdefaults c.obj l := by
  induction l generalizing c with
  | nil => rfl
  | cons p l ih =>
      show (l.foldl _ (MooseConfigurator.obj_setdefault c p.1 p.2)).obj = _
      rw [ih]
      rfl

theorem update_from_defaults_obj (c : MooseConfigurator) :
    (MooseConfigurator.update_from_defaults c).obj = setdefaults c.obj c.defaults :=
  update_from_defaults_obj_aux c.defaults c

theorem get?_setdefault_of_hasKey (d : Obj) (k' : String) (v : Value) (k : String)
    (h : d.hasKey k = true) :
    Obj.get? (setdefault d k' v) k = d.get? k := by
  unfold setdefault
  by_cases hmem : d.any (fun p => p.1 = k')
  · rw [if_pos hmem]
  · rw [if_neg hmem, get?_append]
    have hkk : ¬ k' = k := by
      intro he
      rw [hasKey_eq_any] at h
      rw [he] at hmem
      exact hmem h
    have h0 : Obj.get? [(k', v)] k = none := by
      simp [Obj.get?, optOr, hkk]
    rw [h0]
    rfl

theorem hasKey_setdefault_of_hasKey (d : Obj) (k' : String) (v : Value) (k : String)
    (h : d.hasKey k = true) :
    Obj.hasKey (setdefault d k' v) k = true := by
  unfold Obj.hasKey
  rw [get?_setdefault_of_hasKey d k' v k h]
  exact h

theorem get?_setdefaults_of_hasKey (dfl d : Obj) (k : String)
    (h : d.hasKey k = true) :
    Obj.get? (setdefaults d dfl) k = d.get? k := by
  induction dfl generalizing d with
  | nil => rfl
  | cons p dfl ih =>
      show Obj.get? (setdefaults (setdefault d p.1 p.2) dfl) k = _
      rw [ih _ (hasKey_setdefault_of_hasKey d p.1 p.2 k h),
        get?_setdefault_of_hasKey d p.1 p.2 k h]

/-- C4: `update_from_defaults` never overwrites a key already present in
the unified mapping; and when the unified mapping was seeded from the
defaults at construction, `update()` gives a key set by any tier the value
the tier merge alone would give (defaults have no influence), while a key
set by no tier keeps its default value. -/
theorem defaults_lowest_priority :
    (∀ (c : MooseConfigurator) (k : String), c.obj.hasKey k = true →
      Obj.get? (MooseConfigurator.update_from_defaults c).obj k = c.obj.get? k) ∧
    (∀ (c : MooseConfigurator) (k : String),
      c.obj = (MooseConfigurator.update_from_defaults { c with obj := [] }).obj →
      ((c.system.obj.hasKey k || c.user.obj.hasKey k ||
          c.localSrc.obj.hasKey k) = true →
        Obj.get? (MooseConfigurator.update c).obj k =
          Obj.get? (MooseConfigurator.update { c with obj := [] }).obj k) ∧
      ((c.system.obj.hasKey k || c.user.obj.hasKey k ||
          c.localSrc.obj.hasKey k) = false →
        Obj.get? (MooseConfigurator.update c).obj k =
          Obj.get? (MooseConfigurator.update_from_defaults { c with obj := [] }).obj k)) := by
  constructor
  · intro c k h
    rw [update_from_defaults_obj]
    exact get?_setdefaults_of_hasKey c.defaults c.obj k h
  · intro c k hobj
    have hS' : ({ c with obj := ([] : Obj) } : MooseConfigurator).system = c.system := rfl
    constructor
    · intro htier
      by_cases hov : c.SYSTEM_OVERRIDE = true
      · rw [get?_update_of_override_true c k hov,
          get?_update_of_override_true { c with obj := [] } k hov]
        show optOr _ (optOr _ (optOr _ (optOr _ (Obj.get? c.obj k)))) =
          optOr _ (optOr _ (optOr _ (optOr _ (Obj.get? [] k))))
        rcases Bool.or_eq_true_iff.mp htier with h | hL
        · rcases Bool.or_eq_true_iff.mp h with hS | hU
          · obtain ⟨v, hv⟩ := (hasKey_iff_get? _ _).mp hS
            rw [hv]
            rfl
          · obtain ⟨v, hv⟩ := (hasKey_iff_get? _ _).mp hU
            rw [hv]
            cases c.system.obj.get? k <;> cases c.localSrc.obj.get? k <;> rfl
        · obtain ⟨v, hv⟩ := (hasKey_iff_get? _ _).mp hL
          rw [hv]
          cases c.system.obj.get? k <;> rfl
      · have hovf : c.SYSTEM_OVERRIDE = false := by simpa using hov
        rw [get?_update_of_override_false c k hovf,
          get?_update_of_override_false { c with obj := [] } k hovf]
        show optOr _ (optOr _ (optOr _ (Obj.get? c.obj k))) =
          optOr _ (optOr _ (optOr _ (Obj.get? [] k)))
        rcases Bool.or_eq_true_iff.mp htier with h | hL
        · rcases Bool.or_eq_true_iff.mp h with hS | hU
          · obtain ⟨v, hv⟩ := (hasKey_iff_get? _ _).mp hS
            rw [hv]
            cases c.localSrc.obj.get? k <;> cases c.user.obj.get? k <;> rfl
          · obtain ⟨v, hv⟩ := (hasKey_iff_get? _ _).mp hU
            rw [hv]
            cases c.localSrc.obj.get? k <;> rfl
        · obtain ⟨v, hv⟩ := (hasKey_iff_get? _ _).mp hL
          rw [hv]
          rfl
    · intro htier
      have hS : c.system.obj.get? k = none := by
        apply get?_eq_none_of_hasKey_false
        revert htier
        cases c.system.obj.hasKey k <;> simp
      have hU : c.user.obj.get? k = none := by
        apply get?_eq_none_of_hasKey_false
        revert htier
        cases c.user.obj.hasKey k <;> simp
      have hL : c.localSrc.obj.get? k = none := by
        apply get?_eq_none_of_hasKey_false
        revert htier
        cases c.localSrc.obj.hasKey k <;> simp
      rw [← hobj]
      by_cases hov : c.SYSTEM_OVERRIDE = true
      · rw [get?_update_of_override_true c k hov, hS, hU, hL]
        rfl
      · rw [get?_update_of_override_false c k (by simpa using hov), hS, hU, hL]
        rfl

theorem defaults_lowest_priority_witness :
    let sys : MooseYamlSource := ⟨"system", "/etc/moapp/moapp.yml", [("k", .vStr "s")]⟩
    let usr : MooseYamlSource := ⟨"user", "/home/u/.config/moapp/moapp.yml", []⟩
    let loc : MooseYamlSource := ⟨"local", "/cwd/.moapp.yml", []⟩
    let cA : MooseConfigurator :=
      ⟨[("k", .vStr "x")], [("k", .vStr "d")], sys, usr, loc, false, true⟩
    let cB : MooseConfigurator :=
      ⟨[("k", .vStr "d"), ("m", .vStr "dm")],
        [("k", .vStr "d"), ("m", .vStr "dm")], sys, usr, loc, false, true⟩
    (Obj.get? (MooseConfigurator.update_from_defaults cA).obj "k" =
      cA.obj.get? "k") ∧
    (Obj.get? (MooseConfigurator.update cB).obj "k" =
      Obj.get? (MooseConfigurator.update { cB with obj := [] }).obj "k") ∧
    (Obj.get? (MooseConfigurator.update cB).obj "m" =
      Obj.get? (MooseConfigurator.update_from_defaults { cB with obj := [] }).obj "m") :=
  ⟨defaults_lowest_priority.1 _ "k" (by decide),
    (defaults_lowest_priority.2 _ "k" (by decide)).1 (by decide),
    (defaults_lowest_priority.2 _ "m" (by decide)).2 (by decide)⟩

/-! ### Sources against an abstract filesystem (src/moosecfg/sources.py) -/

theorem is_readable_eq (fs : FileSystem) (s : MooseYamlSource) :
    MooseYamlSource.is_readable fs s =
      (fs.pathExists s.location && fs.isFile s.location && fs.accessR s.location) := by
  unfold MooseYamlSource.is_readable
  by_cases h1 : fs.pathExists s.location <;>
    by_cases h2 : fs.isFile s.location <;>
      by_cases h3 : fs.accessR s.location <;> simp [h1, h2, h3]

theorem is_writable_eq (fs : FileSystem) (s : MooseYamlSource) :
    MooseYamlSource.is_writable fs s =
      (fs.pathExists s.location && fs.isFile s.location && fs.accessW s.location) := by
  unfold MooseYamlSource.is_writable
  by_cases h1 : fs.pathExists s.location <;>
    by_cases h2 : fs.isFile s.location <;>
      by_cases h3 : fs.accessW s.location <;> simp [h1, h2, h3]

theorem is_readable_false_of_absent (fs : FileSystem) (s : MooseYamlSource)
    (h : fs.pathExists s.location = false) :
    MooseYamlSource.is_readable fs s = false := by
  rw [is_readable_eq, h]
  rfl

theorem read_of_safeLoad_dict (fs : FileSystem) (s : MooseYamlSource)
    (hfile : fs.isFile s.location = true) (d : Obj)
    (hdata : fs.safeLoad s.location = .pyDict d) :
    MooseYamlSource.read fs s = .ok { s with obj := d } := by
  unfold MooseYamlSource.read
  rw [hfile]
  simp [hdata]

theorem tier_read_ok (fs : FileSystem) (s : MooseYamlSource)
    (hsafe : sourceReadSafe fs s) :
    ∃ s', (if MooseYamlSource.is_readable fs s
        then MooseYamlSource.read fs s else .ok s) = .ok s' := by
  cases hb : MooseYamlSource.is_readable fs s
  · exact ⟨s, rfl⟩
  · obtain ⟨d, hd⟩ := hsafe hb
    have hfile : fs.isFile s.location = true := by
      rw [is_readable_eq] at hb
      exact (Bool.and_eq_true_iff.mp (Bool.and_eq_true_iff.mp hb).1).2
    exact ⟨{ s with obj := d },
      by rw [if_pos rfl, read_of_safeLoad_dict fs s hfile d hd]⟩

theorem update_no_local_contribution (c : MooseConfigurator)
    (hl : c.localSrc.obj = []) (ho : c.obj = []) :
    (c.SYSTEM_OVERRIDE = false →
      Obj.equiv (MooseConfigurator.update c).obj
        (dictUpdate c.system.obj c.user.obj)) ∧
    (c.SYSTEM_OVERRIDE = true →
      Obj.equiv (MooseConfigurator.update c).obj
        (dictUpdate (dictUpdate c.system.obj c.user.obj) c.system.obj)) := by
  have hLnone : ∀ k, c.localSrc.obj.get? k = none := by
    intro k; rw [hl]; rfl
  have hOnone : ∀ k, c.obj.get? k = none := by
    intro k; rw [ho]; rfl
  constructor
  · intro hov k
    rw [get?_update_of_override_false c k hov, hLnone, hOnone,
      get?_dictUpdate]
    cases c.user.obj.get? k <;> cases c.system.obj.get? k <;> rfl
  · intro hov k
    rw [get?_update_of_override_true c k hov, hLnone, hOnone,
      get?_dictUpdate, get?_dictUpdate]
    cases c.user.obj.get? k <;> cases c.system.obj.get? k <;> rfl

/-- C5: when the local tier's file is absent while `LOCAL_FILE_LOAD` is
true (and the system and user tiers decode to data when readable),
`read()` succeeds, the local source's object stays the empty mapping, and
`update()` then produces exactly the engine's merge of the system and user
tiers — with no local contribution — in both override modes. -/
theorem read_missing_local_file
    (fs : FileSystem) (c : MooseConfigurator)
    (_hload : c.LOCAL_FILE_LOAD = true)
    (habsent : fs.pathExists c.localSrc.location = false)
    (hlocEmpty : c.localSrc.obj = [])
    (hobj : c.obj = [])
    (hsys : sourceReadSafe fs c.system)
    (husr : sourceReadSafe fs c.user) :
    ∃ c', MooseConfigurator.read fs c = .ok c' ∧
      c'.localSrc.obj = [] ∧
      (c'.SYSTEM_OVERRIDE = false →
        Obj.equiv (MooseConfigurator.update c').obj
          (dictUpdate c'.system.obj c'.user.obj)) ∧
      (c'.SYSTEM_OVERRIDE = true →
        Obj.equiv (MooseConfigurator.update c').obj
          (dictUpdate (dictUpdate c'.system.obj c'.user.obj) c'.system.obj)) := by
  obtain ⟨sys', hsys'⟩ := tier_read_ok fs c.system hsys
  obtain ⟨usr', husr'⟩ := tier_read_ok fs c.user husr
  have hlocbranch :
      (if MooseYamlSource.is_readable fs c.localSrc && c.LOCAL_FILE_LOAD
        then MooseYamlSource.read fs c.localSrc else .ok c.localSrc) =
      Except.ok c.localSrc := by
    rw [is_readable_false_of_absent fs c.localSrc habsent]
    rfl
  refine ⟨{ c with system := sys', user := usr', localSrc := c.localSrc }, ?_, hlocEmpty, ?_⟩
  · unfold MooseConfigurator.read
    rw [hsys', husr', hlocbranch]
  · exact update_no_local_contribution _ hlocEmpty hobj

theorem read_missing_local_file_witness :
    let sys : MooseYamlSource := ⟨"system", "/etc/moapp/moapp.yml", []⟩
    let usr : MooseYamlSource := ⟨"user", "/home/u/.config/moapp/moapp.yml", []⟩
    let loc : MooseYamlSource := ⟨"local", "/cwd/.moapp.yml", []⟩
    let c : MooseConfigurator := ⟨[], [], sys, usr, loc, false, true⟩
    let fs : FileSystem :=
      ⟨fun _ => false, fun _ => false, fun _ => false, fun _ => false,
        fun _ => .pyDict []⟩
    ∃ c', MooseConfigurator.read fs c = .ok c' ∧
      c'.localSrc.obj = [] ∧
      (c'.SYSTEM_OVERRIDE = false →
        Obj.equiv (MooseConfigurator.update c').obj
          (dictUpdate c'.system.obj c'.user.obj)) ∧
      (c'.SYSTEM_OVERRIDE = true →
        Obj.equiv (MooseConfigurator.update c').obj
          (dictUpdate (dictUpdate c'.system.obj c'.user.obj) c'.system.obj)) :=
  read_missing_local_file _ _ rfl rfl rfl rfl
    (fun h => absurd h (by decide)) (fun h => absurd h (by decide))

/-- C6: evaluating `MooseYamlSource.read` at the claim's inputs. At an
absent location `read` completes and stores an empty mapping, and at a
location that decodes to data it stores that mapping, as the claim says;
but at an existing file whose contents decode to no data (`yaml.safe_load`
returns `None`) the code raises `AttributeError` from `None.copy()`
instead of storing an empty mapping, contradicting the claim. -/
theorem read_decode_results :
    let s : MooseYamlSource := ⟨"local", "/cwd/.moapp.yml", [("old", .vInt 0)]⟩
    let fsAbsent : FileSystem :=
      ⟨fun _ => false, fun _ => false, fun _ => false, fun _ => false,
        fun _ => .pyDict []⟩
    let fsData : FileSystem :=
      ⟨fun _ => true, fun _ => true, fun _ => true, fun _ => true,
        fun _ => .pyDict [("k", .vInt 1)]⟩
    let fsNoData : FileSystem :=
      ⟨fun _ => true, fun _ => true, fun _ => true, fun _ => true,
        fun _ => .pyNone⟩
    MooseYamlSource.read fsAbsent s = .ok { s with obj := [] } ∧
    MooseYamlSource.read fsData s = .ok { s with obj := [("k", .vInt 1)] } ∧
    MooseYamlSource.read fsNoData s =
      .error "AttributeError: NoneType object has no attribute copy" :=
  ⟨rfl, rfl, rfl⟩

/-- C7: `MooseYamlSource.is_writable` is true exactly when the location
exists, is a regular file and is process-writable; a nonexistent file is
never writable; and the base class and the HTTP variants (which do not
override it) answer `False` unconditionally. -/
theorem is_writable_contract :
    (∀ (fs : FileSystem) (s : MooseYamlSource),
      MooseYamlSource.is_writable fs s = true ↔
        (fs.pathExists s.location = true ∧ fs.isFile s.location = true ∧
          fs.accessW s.location = true)) ∧
    (∀ (fs : FileSystem) (s : MooseYamlSource),
      fs.pathExists s.location = false →
        MooseYamlSource.is_writable fs s = false) ∧
    MooseConfiguratorSource.is_writable = false ∧
    MooseHttpYamlSource.is_writable = false ∧
    MooseHttpJsonSource.is_writable = false := by
  refine ⟨fun fs s => ?_, fun fs s h => ?_, rfl, rfl, rfl⟩
  · rw [is_writable_eq]
    simp [Bool.and_eq_true_iff, and_assoc]
  · rw [is_writable_eq, h]
    rfl

theorem is_writable_contract_witness :
    let s : MooseYamlSource := ⟨"local", "/cwd/.moapp.yml", []⟩
    let fs : FileSystem :=
      ⟨fun _ => false, fun _ => false, fun _ => false, fun _ => false,
        fun _ => .pyDict []⟩
    (MooseYamlSource.is_writable fs s = true ↔
      (fs.pathExists s.location = true ∧ fs.isFile s.location = true ∧
        fs.accessW s.location = true)) ∧
    MooseYamlSource.is_writable fs s = false :=
  ⟨is_writable_contract.1 _ _, is_writable_contract.2.1 _ _ rfl⟩

/-! ### Paths (core.py `filename` / `local_full_path`) -/

theorem normStep_plain (acc : Path) (c : String) (h : isPlainComponent c) :
    normStep acc c = acc ++ [c] := by
  obtain ⟨h1, h2, h3⟩ := h
  unfold normStep
  rw [if_neg (fun hor => hor.elim h1 h2), if_neg h3]

theorem basename_abspath_append (d : Path) (c : String) (h : isPlainComponent c) :
    basename (abspath (d ++ [c])) = c := by
  unfold abspath
  rw [List.foldl_append]
  show basename (normStep (abspath d) c) = c
  rw [normStep_plain _ _ h]
  unfold basename
  rw [List.getLast?_concat]
  rfl

theorem string_eq_empty_of_length_zero (s : String) (h : s.length = 0) : s = "" := by
  cases s with
  | mk data =>
      cases data with
      | nil => rfl
      | cons c cs => simp [String.length] at h

theorem filename_length (name extension : String) :
    (filename name extension).length = name.length + 1 + extension.length := by
  unfold filename
  rw [String.length_append, String.length_append]
  rfl

theorem filename_plainComponent (name extension : String)
    (h1 : name ≠ "") (h2 : name ≠ ".") :
    isPlainComponent (filename name extension) := by
  have hn : name.length ≠ 0 := fun h => h1 (string_eq_empty_of_length_zero name h)
  have hlen := filename_length name extension
  refine ⟨?_, ?_, ?_⟩
  · intro he
    have hl := congrArg String.length he
    rw [hlen] at hl
    have h0 : ("" : String).length = 0 := rfl
    rw [h0] at hl
    omega
  · intro he
    have hl := congrArg String.length he
    rw [hlen] at hl
    have hdot : (".").length = 1 := rfl
    rw [hdot] at hl
    omega
  · intro he
    have hl := congrArg String.length he
    rw [hlen] at hl
    have hdd : ("..").length = 2 := rfl
    rw [hdd] at hl
    have he0 : extension.length = 0 := by omega
    have hext : extension = "" := string_eq_empty_of_length_zero extension he0
    unfold filename at he
    rw [hext] at he
    have hdata := congrArg String.data he
    rw [String.data_append, String.data_append] at hdata
    have hempty : ("" : String).data = [] := rfl
    have hdot : (".").data = ['.'] := rfl
    have hdd2 : ("..").data = ['.'] ++ ['.'] := rfl
    rw [hempty, hdot, hdd2, List.append_nil] at hdata
    have h10 : name.data = ['.'] := List.append_cancel_right hdata
    exact h2 (String.ext (h10.trans hdot.symm))

theorem dot_filename_plainComponent (name extension : String) (h1 : name ≠ "") :
    isPlainComponent ("." ++ filename name extension) := by
  have hn : name.length ≠ 0 := fun h => h1 (string_eq_empty_of_length_zero name h)
  have hlen : ("." ++ filename name extension).length =
      1 + (name.length + 1 + extension.length) := by
    rw [String.length_append, filename_length]
    rfl
  refine ⟨?_, ?_, ?_⟩
  · intro he
    have hl := congrArg String.length he
    rw [hlen] at hl
    have h0 : ("" : String).length = 0 := rfl
    rw [h0] at hl
    omega
  · intro he
    have hl := congrArg String.length he
    rw [hlen] at hl
    have hdot : (".").length = 1 := rfl
    rw [hdot] at hl
    omega
  · intro he
    have hl := congrArg String.length he
    rw [hlen] at hl
    have hdd : ("..").length = 2 := rfl
    rw [hdd] at hl
    omega

/-- C8: the basename of the resolved local configuration file path is
`"." ++ name ++ "." ++ extension` when `LOCAL_FILE_HIDDEN` is true and
`name ++ "." ++ extension` when it is false, for any directory and any
name/extension that are sensible path-component texts (`name` nonempty and
not the `.` component, no path separator in either). -/
theorem local_full_path_basename
    (dir : Path) (name extension : String) (hidden : Bool)
    (h1 : name ≠ "") (h2 : name ≠ ".")
    (_h3 : ('/' : Char) ∉ name.data) (_h4 : ('/' : Char) ∉ extension.data) :
    (hidden = true →
      basename (local_full_path dir name extension hidden) =
        "." ++ name ++ "." ++ extension) ∧
    (hidden = false →
      basename (local_full_path dir name extension hidden) =
        name ++ "." ++ extension) := by
  constructor
  · intro hh
    subst hh
    unfold local_full_path
    show basename (abspath (dir ++ ["." ++ filename name extension])) = _
    rw [basename_abspath_append _ _ (dot_filename_plainComponent name extension h1)]
    unfold filename
    simp [String.append_assoc]
  · intro hh
    subst hh
    unfold local_full_path
    show basename (abspath (dir ++ [filename name extension])) = _
    rw [basename_abspath_append _ _ (filename_plainComponent name extension h1 h2)]
    rfl

theorem local_full_path_basename_witness :
    (basename (local_full_path ["home", "u", "proj"] "moapp" "yml" true) =
      "." ++ "moapp" ++ "." ++ "yml") ∧
    (basename (local_full_path ["home", "u", "proj"] "moapp" "yml" false) =
      "moapp" ++ "." ++ "yml") :=
  ⟨(local_full_path_basename ["home", "u", "proj"] "moapp" "yml" true
      (by decide) (by decide) (by decide) (by decide)).1 rfl,
    (local_full_path_basename ["home", "u", "proj"] "moapp" "yml" false
      (by decide) (by decide) (by decide) (by decide)).2 rfl⟩

/-! ### MooseDirs (src/moosecfg/utils.py) -/

/-- C9: evaluation at the claim's failing input. The claim says two
`MooseDirs` constructions with the same inputs yield the same tier paths
with no side effects; but `__init__` appends to the class-level `_joins`
list, so the construction has a side effect and the second identical
construction resolves `system_config` (and `user_config`) one level
deeper than the first. -/
theorem moose_dirs_construction_not_pure :
    (MooseDirs.init [] "moapp" none).2 ≠ [] ∧
    MooseDirs.system_config ["etc"] (MooseDirs.init [] "moapp" none).2 =
      ["etc", "moapp"] ∧
    MooseDirs.system_config ["etc"]
        (MooseDirs.init (MooseDirs.init [] "moapp" none).2 "moapp" none).2 =
      ["etc", "moapp", "moapp"] ∧
    MooseDirs.system_config ["etc"]
        (MooseDirs.init (MooseDirs.init [] "moapp" none).2 "moapp" none).2 ≠
      MooseDirs.system_config ["etc"] (MooseDirs.init [] "moapp" none).2 ∧
    MooseDirs.user_config ["home", "u", ".config"]
        (MooseDirs.init (MooseDirs.init [] "moapp" none).2 "moapp" none).2 ≠
      MooseDirs.user_config ["home", "u", ".config"]
        (MooseDirs.init [] "moapp" none).2 := by
  refine ⟨by decide, by decide, by decide, by decide, by decide⟩

/-! ### The class-level `_obj` of `MooseConfigurator` (core.py line 49) -/

/-- C10: `_obj` is class-level, not per-instance. After a first instance
merges a mapping `m` into the unified mapping, a second instance
constructed afterwards (with any `defaults` argument) already has every
key of `m` present in its `obj` before it merges any source of its own:
separately constructed Configurators are not isolated. -/
theorem shared_obj_across_instances
    (st : MooseConfiguratorClassState) (m defaults : Obj) (k : String)
    (hk : m.hasKey k = true) :
    Obj.hasKey (sharedObj (constructInstance (sharedObjUpdate st m) defaults)) k =
      true := by
  obtain ⟨v, hv⟩ := (hasKey_iff_get? m k).mp hk
  have h1 : Obj.hasKey (dictUpdate st.classObj m) k = true := by
    unfold Obj.hasKey
    rw [get?_dictUpdate, hv]
    rfl
  show Obj.hasKey (setdefaults (dictUpdate st.classObj m) defaults) k = true
  unfold Obj.hasKey
  rw [get?_setdefaults_of_hasKey defaults _ k h1]
  exact h1

theorem shared_obj_across_instances_witness :
    Obj.hasKey
      (sharedObj (constructInstance
        (sharedObjUpdate ⟨[]⟩ [("k", .vInt 1)]) [("d", .vStr "x")])) "k" = true :=
  shared_obj_across_instances ⟨[]⟩ [("k", .vInt 1)] [("d", .vStr "x")] "k" (by decide)

end Moosecfg
